import Mathlib

/-!
Shallow embedding of the stock-picker core (src/lambda/lambda_function.py):
the scoring engine analyze_stock_indicators, the alternate scorer
trading_script_with_position_sizing, the ranking stage of lambda_handler,
the sink adapter export_to_sheets, and the fan-out fetcher fetch / get_data.
Numbers are modelled as rationals; Python round (round half to even) and
int (truncation toward zero) are modelled explicitly.
-/

namespace StockPicker

/-- Python round to an integer: round half to even. -/
def pyRoundInt (q : ℚ) : ℤ :=
  let f := ⌊q⌋
  let r := q - (f : ℚ)
  if r < 1/2 then f
  else if (1 : ℚ)/2 < r then f + 1
  else if f % 2 = 0 then f else f + 1

/-- Python round(x, n): round to n decimal places, half to even. -/
def pyRound (n : ℕ) (q : ℚ) : ℚ := (pyRoundInt (q * 10 ^ n) : ℚ) / 10 ^ n

/-- Python int() on a rational: truncation toward zero. -/
def pyInt (q : ℚ) : ℤ := Int.tdiv q.num (q.den : ℤ)

/-- Python min of two rationals: the first argument on ties. -/
def pyMin (a b : ℚ) : ℚ := if a ≤ b then a else b

/-- Python max of two rationals: the first argument on ties. -/
def pyMax (a b : ℚ) : ℚ := if a ≥ b then a else b

/-- The normalize helper of analyze_stock_indicators: linear map clamped
to the interval from 0 to 1. -/
def normalize (value lower upper : ℚ) : ℚ :=
  pyMax 0 (pyMin ((value - lower) / (upper - lower)) 1)

/-- The safe_div helper: a / b when b is nonzero, else 0. -/
def safe_div (a b : ℚ) : ℚ := if b ≠ 0 then a / b else 0

/-- The indicator payload of one symbol, as the JSON dict the API returns:
every field optional (a missing key), numeric fields as rationals.  The
fields mac_long_term, mac_short_term, change and rec_macd are read only by
the alternate scorer. -/
structure Snapshot where
  symbol : Option String := none
  segment : Option String := none
  adx : Option ℚ := none
  macd : Option ℚ := none
  rsi : Option ℚ := none
  willR : Option ℚ := none
  stochastic_k : Option ℚ := none
  awesome_oscillator : Option ℚ := none
  momentum : Option ℚ := none
  vwma : Option ℚ := none
  close : Option ℚ := none
  ema5 : Option ℚ := none
  ema10 : Option ℚ := none
  ema20 : Option ℚ := none
  ema50 : Option ℚ := none
  ema100 : Option ℚ := none
  ema200 : Option ℚ := none
  win_signals : Option ℚ := none
  loss_signals : Option ℚ := none
  mac_long_term : Option ℚ := none
  mac_short_term : Option ℚ := none
  change : Option ℚ := none
  rec_macd : Option ℚ := none
deriving DecidableEq, Repr

/-- The risk_parameters configuration dict. -/
structure RiskPolicy where
  max_drawdown_percent : ℚ
  per_trade_loss_percent : ℚ
  daily_stop_loss_percent : ℚ
  monthly_loss_percent : ℚ
  trading_horizon_days : ℚ
deriving DecidableEq, Repr

/-- The module-level risk_parameters value. -/
def risk_parameters : RiskPolicy :=
  { max_drawdown_percent := 5
    per_trade_loss_percent := 1
    daily_stop_loss_percent := 2
    monthly_loss_percent := 4
    trading_horizon_days := 14 }

/-- The module-level portfolio_capital value. -/
def portfolio_capital : ℚ := 100000

/-- The good-till-triggered pair attached to an entering decision. -/
structure GTTPair where
  stop_loss_trigger : ℚ
  target_trigger : ℚ
deriving DecidableEq, Repr

/-- The decision dict built by the scorers.  Keys present in only one
branch are optional; params keeps the serialized input snapshot. -/
structure Decision where
  symbol : Option String
  segment : Option String
  params : Snapshot
  weighted_score : ℚ
  enter : Bool
  buy_price : Option ℚ := none
  stop_loss_price : Option ℚ := none
  target_price : Option ℚ := none
  GTT : Option GTTPair := none
  max_shares : Option ℤ := none
  reason : Option String := none
deriving DecidableEq, Repr

/-- Trend sub-score: adx normalized from the range 0 to 50. -/
def trend_strength (s : Snapshot) : ℚ := normalize (s.adx.getD 0) 0 50

/-- Trend sub-score: 1 when the six EMA values are strictly descending. -/
def ema_alignment (s : Snapshot) : ℚ :=
  if s.ema5.getD 0 > s.ema10.getD 0 ∧ s.ema10.getD 0 > s.ema20.getD 0
      ∧ s.ema20.getD 0 > s.ema50.getD 0 ∧ s.ema50.getD 0 > s.ema100.getD 0
      ∧ s.ema100.getD 0 > s.ema200.getD 0 then 1 else 0

/-- Trend sub-score: 1 when macd is positive. -/
def macd_trend (s : Snapshot) : ℚ := if s.macd.getD 0 > 0 then 1 else 0

/-- Momentum sub-score: rsi normalized from the range 30 to 70. -/
def rsi_score (s : Snapshot) : ℚ := normalize (s.rsi.getD 0) 30 70

/-- Momentum sub-score: stochastic_k normalized from the range 20 to 80. -/
def stoch_score (s : Snapshot) : ℚ := normalize (s.stochastic_k.getD 0) 20 80

/-- Momentum sub-score: Williams %R inverted and normalized. -/
def willr_score (s : Snapshot) : ℚ := 1 - normalize (-(s.willR.getD (-100))) 20 80

/-- Momentum sub-score: 1 when momentum is positive. -/
def momentum_score (s : Snapshot) : ℚ := if s.momentum.getD 0 > 0 then 1 else 0

/-- Confirmation sub-score: awesome oscillator normalized from -50 to 50. -/
def ao_score (s : Snapshot) : ℚ := normalize (s.awesome_oscillator.getD 0) (-50) 50

/-- Confirmation sub-score: 1 when close is at least vwma. -/
def vwma_score (s : Snapshot) : ℚ := if s.close.getD 0 ≥ s.vwma.getD 0 then 1 else 0

/-- Ratio of winning signals to total signals, 0 when there are none. -/
def win_rate (s : Snapshot) : ℚ :=
  safe_div (s.win_signals.getD 0) (s.win_signals.getD 0 + s.loss_signals.getD 0)

/-- Performance sub-score: win rate normalized from 0.3 to 0.8. -/
def performance_score (s : Snapshot) : ℚ := normalize (win_rate s) (3/10) (8/10)

/-- The composite weighted sum of analyze_stock_indicators, before
rounding. -/
def weightedSum (s : Snapshot) : ℚ :=
  trend_strength s * (15/100) + ema_alignment s * (10/100) + macd_trend s * (15/100)
  + rsi_score s * (10/100) + stoch_score s * (10/100) + willr_score s * (5/100)
  + momentum_score s * (10/100) + ao_score s * (10/100) + vwma_score s * (5/100)
  + performance_score s * (10/100)

/-- The scoring engine analyze_stock_indicators: normalize, weight, sum,
round, threshold at 0.6, and compute prices and position size when
entering. -/
def analyze_stock_indicators (indicators : Snapshot) (risk_params : RiskPolicy)
    (portfolio_value : ℚ) : Decision :=
  let ws := weightedSum indicators
  let reason :=
    if ws ≥ 7/10 then "Strong trend and positive momentum"
    else if ws ≥ 45/100 then "Moderate momentum, trend still intact"
    else "Weakening trend or momentum signals"
  let threshold : ℚ := 6/10
  if ws ≥ threshold then
    let buy_price := indicators.close.getD 0
    let stop_loss_price := buy_price * (1 - risk_params.daily_stop_loss_percent / 100)
    let target_price := buy_price * (1 + 4 / 100)
    let max_per_trade_risk := portfolio_value * risk_params.per_trade_loss_percent / 100
    let risk_per_share := buy_price - stop_loss_price
    let max_shares := if risk_per_share ≠ 0 then max_per_trade_risk / risk_per_share else 0
    { symbol := indicators.symbol
      segment := indicators.segment
      params := indicators
      weighted_score := pyRound 4 ws
      enter := true
      buy_price := some (pyRound 2 buy_price)
      stop_loss_price := some (pyRound 2 stop_loss_price)
      target_price := some (pyRound 2 target_price)
      GTT := some { stop_loss_trigger := pyRound 2 stop_loss_price
                    target_trigger := pyRound 2 target_price }
      max_shares := some (pyInt max_shares) }
  else
    { symbol := indicators.symbol
      segment := indicators.segment
      params := indicators
      weighted_score := pyRound 4 ws
      enter := false
      reason := some reason }

/-- Helper of the alternate scorer: rsi divided by 100, no clamping. -/
def normalize_rsi (val : ℚ) : ℚ := val / 100

/-- Helper of the alternate scorer: adx over 40, clamped above at 1. -/
def normalize_adx (val : ℚ) : ℚ := pyMin (val / 40) 1

/-- Helper of the alternate scorer: negated Williams %R over 100. -/
def normalize_willr (val : ℚ) : ℚ := (0 - val) / 100

/-- Helper of the alternate scorer: macd over 1000, clamped to 0..1. -/
def normalize_macd (val : ℚ) : ℚ := pyMin (pyMax (val / 1000) 0) 1

/-- The alternate scorer trading_script_with_position_sizing, with its own
weight table, a hard-coded 2 percent stop loss, and several unclamped
sub-scores. -/
def trading_script_with_position_sizing (api_data : Snapshot) (risk_params : RiskPolicy)
    (portfolio_value : ℚ) : Decision :=
  let adx_s := normalize_adx (api_data.adx.getD 0)
  let rsi_s := normalize_rsi (api_data.rsi.getD 0)
  let macd_s := normalize_macd (api_data.macd.getD 0)
  let mac_long_term_s : ℚ := if api_data.mac_long_term.getD 0 > 0 then 1 else 0
  let mac_short_term_s : ℚ := if api_data.mac_short_term.getD 0 > 0 then 1 else 0
  let willr_s := normalize_willr (api_data.willR.getD (-100))
  let stochastic_k_s := api_data.stochastic_k.getD 0 / 100
  let change_s : ℚ := if api_data.change.getD 0 > 0 then 1 else 0
  let rec_macd_s := api_data.rec_macd.getD 0
  let ws := adx_s * (15/100) + rsi_s * (15/100) + macd_s * (15/100)
    + mac_long_term_s * (10/100) + mac_short_term_s * (10/100) + willr_s * (10/100)
    + stochastic_k_s * (10/100) + change_s * (10/100) + rec_macd_s * (5/100)
  let threshold : ℚ := 6/10
  if ws ≥ threshold then
    let buy_price := api_data.close.getD 0
    let stop_loss_percent : ℚ := 2
    let stop_loss_price := buy_price * (1 - stop_loss_percent / 100)
    let target_price := buy_price * (1 + 4 / 100)
    let max_per_trade_risk := portfolio_value * risk_params.per_trade_loss_percent / 100
    let risk_per_share := buy_price - stop_loss_price
    let max_shares := if risk_per_share ≠ 0 then max_per_trade_risk / risk_per_share else 0
    { symbol := api_data.symbol
      segment := api_data.segment
      params := api_data
      weighted_score := pyRound 4 ws
      enter := true
      buy_price := some (pyRound 2 buy_price)
      stop_loss_price := some (pyRound 2 stop_loss_price)
      target_price := some (pyRound 2 target_price)
      GTT := some { stop_loss_trigger := pyRound 2 stop_loss_price
                    target_trigger := pyRound 2 target_price }
      max_shares := some (pyInt max_shares) }
  else
    { symbol := api_data.symbol
      segment := api_data.segment
      params := api_data
      weighted_score := pyRound 4 ws
      enter := false
      reason := some "Weighted score below threshold, no entry." }

/-- Buy-price sort key of a decision row; entering rows carry some value. -/
def buyKey (d : Decision) : ℚ := d.buy_price.getD 0

/-- Descending lexicographic comparison on (weighted score, buy price):
true when d may come no later than e.  pandas sort_values on several
columns performs a stable lexicographic sort with these keys. -/
def rankLE (d e : Decision) : Bool :=
  decide (e.weighted_score < d.weighted_score)
  || (decide (d.weighted_score = e.weighted_score) && decide (buyKey e ≤ buyKey d))

/-- Stable insertion step of the ranking sort. -/
def rankInsert (x : Decision) : List Decision → List Decision
  | [] => [x]
  | y :: l => if rankLE x y then x :: y :: l else y :: rankInsert x l

/-- Stable insertion sort by descending (weighted score, buy price). -/
def rankSort : List Decision → List Decision
  | [] => []
  | x :: l => rankInsert x (rankSort l)

/-- The ranking stage of lambda_handler: keep the rows with enter true and
sort them by weighted score descending, then buy price descending. -/
def ranker (ds : List Decision) : List Decision :=
  rankSort (ds.filter (fun d => d.enter))

/-- The pair of sort keys the ranker orders by. -/
def rankKey (d : Decision) : ℚ × ℚ := (d.weighted_score, buyKey d)

/-- A worksheet: the persisted grid of rows. -/
structure Sheet where
  rows : List (List String)
deriving DecidableEq, Repr

/-- A dataframe to persist: a header and data rows. -/
structure Frame where
  header : List String
  data : List (List String)
deriving DecidableEq, Repr

/-- The three modes of export_to_sheets: w, a, and the default read. -/
inductive SheetMode
  | write
  | append
  | read
deriving DecidableEq, Repr

/-- The sink adapter export_to_sheets: append on a sheet with at most one
existing row is silently treated as overwrite; overwrite clears the sheet
and writes header plus rows; append extends the grid below the existing
rows without a header; read returns the current rows without mutation.
Returns the new sheet state and, in read mode, the rows read. -/
def export_to_sheets (df : Frame) (mode : SheetMode) (ws : Sheet) :
    Sheet × Option (List (List String)) :=
  let max_rows := ws.rows.length
  let mode := if max_rows ≤ 1 ∧ mode = SheetMode.append then SheetMode.write else mode
  match mode with
  | SheetMode.write => ({ rows := df.header :: df.data }, none)
  | SheetMode.append => ({ rows := ws.rows ++ df.data }, none)
  | SheetMode.read => (ws, some ws.rows)

/-- One identifier segment:symbol, already split at the colon. -/
structure SegSym where
  seg : String
  sym : String
deriving DecidableEq, Repr

/-- Outcome of one HTTP retrieval: a decoded JSON payload, or a raised
error (network failure, non-2xx status via raise_for_status, or a
malformed body failing to decode). -/
inductive Outcome
  | payload (j : Snapshot)
  | raised (e : String)
deriving DecidableEq, Repr

/-- fetch: tag the payload with segment and symbol; any raised error is
caught and returned as a tagged error string instead of propagating. -/
def fetch (net : SegSym → Outcome) (seg_sym : SegSym) : Snapshot ⊕ String :=
  match net seg_sym with
  | Outcome.payload j =>
      Sum.inl { j with segment := some seg_sym.seg, symbol := some seg_sym.sym }
  | Outcome.raised e => Sum.inr ("Error: " ++ e)

/-- get_data: one fetch per identifier; the batch result keeps one entry
per input identifier. -/
def get_data (net : SegSym → Outcome) (symbols : List SegSym) : List (Snapshot ⊕ String) :=
  symbols.map (fetch net)

/-- The scoring stage of lambda_handler: only dict results are scored,
error strings are skipped. -/
def scored_decisions (results : List (Snapshot ⊕ String)) (rp : RiskPolicy) (pv : ℚ) :
    List Decision :=
  results.filterMap (fun r =>
    match r with
    | Sum.inl d => some (analyze_stock_indicators d rp pv)
    | Sum.inr _ => none)

/-- Replace each missing indicator field read by analyze_stock_indicators
with the neutral default that dict.get substitutes: 0 everywhere except
Williams %R, which defaults to -100. -/
def fillDefaults (s : Snapshot) : Snapshot :=
  { s with
    adx := some (s.adx.getD 0)
    macd := some (s.macd.getD 0)
    rsi := some (s.rsi.getD 0)
    willR := some (s.willR.getD (-100))
    stochastic_k := some (s.stochastic_k.getD 0)
    awesome_oscillator := some (s.awesome_oscillator.getD 0)
    momentum := some (s.momentum.getD 0)
    vwma := some (s.vwma.getD 0)
    close := some (s.close.getD 0)
    ema5 := some (s.ema5.getD 0)
    ema10 := some (s.ema10.getD 0)
    ema20 := some (s.ema20.getD 0)
    ema50 := some (s.ema50.getD 0)
    ema100 := some (s.ema100.getD 0)
    ema200 := some (s.ema200.getD 0)
    win_signals := some (s.win_signals.getD 0)
    loss_signals := some (s.loss_signals.getD 0) }

/-! ## Concrete inputs used by counterexamples and witnesses -/

/-- A snapshot whose raw weighted sum is exactly 0.59996: below the entry
threshold, but rounding to 4 places gives 0.6. -/
def borderSnapshot : Snapshot :=
  { adx := some 50
    macd := some 1
    rsi := some (49984/1000)
    momentum := some 1
    awesome_oscillator := some (-50)
    close := some 1
    ema5 := some 6
    ema10 := some 5
    ema20 := some 4
    ema50 := some 3
    ema100 := some 2
    ema200 := some 1 }

/-- A snapshot with every sub-score at its maximum but no close field: its
weighted sum is 1, so it enters, with every price defaulting to 0. -/
def noCloseSnapshot : Snapshot :=
  { adx := some 50
    macd := some 1
    rsi := some 70
    stochastic_k := some 80
    willR := some (-10)
    momentum := some 1
    awesome_oscillator := some 50
    win_signals := some 8
    loss_signals := some 2
    ema5 := some 6
    ema10 := some 5
    ema20 := some 4
    ema50 := some 3
    ema100 := some 2
    ema200 := some 1 }

/-- The no-close snapshot with close 100: weighted sum 1, entering at a
buy price of 100. -/
def strongSnapshot : Snapshot :=
  { noCloseSnapshot with close := some 100 }

/-- Input for the alternate scorer with an unclamped rec_macd of 100. -/
def recMacdSnapshot : Snapshot :=
  { rec_macd := some 100 }

/-- Five identifiers for the fan-out example. -/
def fiveSymbols : List SegSym :=
  [⟨"NSE", "A"⟩, ⟨"NSE", "B"⟩, ⟨"NSE", "C"⟩, ⟨"NSE", "D"⟩, ⟨"NSE", "E"⟩]

/-- A network in which exactly the retrieval for symbol C raises. -/
def oneFailureNet : SegSym → Outcome := fun s =>
  if s.sym = "C" then Outcome.raised "network error" else Outcome.payload {}

/-- A one-row (header-only) frame and sheet for the sink witness. -/
def headerOnlySheet : Sheet := { rows := [["date_time", "symbol"]] }

/-- A small frame for the sink witness. -/
def sampleFrame : Frame :=
  { header := ["date_time", "symbol"], data := [["Oct-02-2025 14:05", "X"]] }

/-! ## Helper lemmas -/

lemma pyRoundInt_of_frac_lt (q : ℚ) (f : ℤ) (h1 : (f : ℚ) ≤ q) (h2 : q < f + 1)
    (h : q - f < 1/2) : pyRoundInt q = f := by
  have hf : ⌊q⌋ = f := Int.floor_eq_iff.mpr ⟨h1, h2⟩
  simp only [pyRoundInt, hf]
  rw [if_pos h]

lemma pyRoundInt_of_frac_gt (q : ℚ) (f : ℤ) (h1 : (f : ℚ) ≤ q) (h2 : q < f + 1)
    (h : 1/2 < q - f) : pyRoundInt q = f + 1 := by
  have hf : ⌊q⌋ = f := Int.floor_eq_iff.mpr ⟨h1, h2⟩
  simp only [pyRoundInt, hf]
  rw [if_neg (by linarith), if_pos h]

lemma pyMin_le_right (a b : ℚ) : pyMin a b ≤ b := by
  unfold pyMin
  split
  · assumption
  · exact le_refl b

lemma pyMax_le (a b c : ℚ) (h1 : a ≤ c) (h2 : b ≤ c) : pyMax a b ≤ c := by
  unfold pyMax
  split <;> assumption

lemma pyMax_zero_nonneg (b : ℚ) : 0 ≤ pyMax 0 b := by
  unfold pyMax
  split
  · exact le_refl 0
  · exact le_of_not_ge (by assumption)

lemma normalize_nonneg (v l u : ℚ) : 0 ≤ normalize v l u :=
  pyMax_zero_nonneg _

lemma normalize_le_one (v l u : ℚ) : normalize v l u ≤ 1 :=
  pyMax_le _ _ _ zero_le_one (pyMin_le_right _ _)

lemma ite_unit_interval (c : Prop) [Decidable c] :
    0 ≤ (if c then (1 : ℚ) else 0) ∧ (if c then (1 : ℚ) else 0) ≤ 1 := by
  split <;> norm_num

lemma pyRoundInt_intCast (z : ℤ) : pyRoundInt (z : ℚ) = z :=
  pyRoundInt_of_frac_lt _ z (le_refl _) (by norm_num) (by norm_num)

lemma pyRound_intCast (n : ℕ) (z : ℤ) : pyRound n (z : ℚ) = (z : ℚ) := by
  have h : (z : ℚ) * 10 ^ n = ((z * 10 ^ n : ℤ) : ℚ) := by push_cast; ring
  rw [pyRound, h, pyRoundInt_intCast]
  push_cast
  rw [mul_div_assoc, div_self (by positivity : ((10:ℚ) ^ n) ≠ 0), mul_one]

lemma pyRound_zero (n : ℕ) : pyRound n 0 = 0 := by
  simpa using pyRound_intCast n 0

lemma pyInt_zero : pyInt 0 = 0 := by simp [pyInt]

lemma pyInt_nonneg (q : ℚ) (h : 0 ≤ q) : 0 ≤ pyInt q :=
  Int.tdiv_nonneg (Rat.num_nonneg.mpr h) (Int.natCast_nonneg _)

/-- The entry flag of the scoring engine is exactly the comparison of the
unrounded weighted sum against the 0.6 threshold. -/
lemma enter_iff_threshold (s : Snapshot) (rp : RiskPolicy) (pv : ℚ) :
    (analyze_stock_indicators s rp pv).enter = true ↔ (6:ℚ)/10 ≤ weightedSum s := by
  by_cases h : (6:ℚ)/10 ≤ weightedSum s
  · simp [analyze_stock_indicators, ge_iff_le, if_pos h, h]
  · simp [analyze_stock_indicators, ge_iff_le, if_neg h, h]

lemma weightedSum_borderSnapshot : weightedSum borderSnapshot = 59996/100000 := by
  norm_num [weightedSum, borderSnapshot, trend_strength, ema_alignment, macd_trend,
    rsi_score, stoch_score, willr_score, momentum_score, ao_score, vwma_score,
    performance_score, win_rate, safe_div, normalize, pyMin, pyMax]

/-! ## Claims -/

/-- Claim C1, counterexample: on borderSnapshot the stored composite score
(the weighted sum rounded to 4 places) is 0.6, at the entry threshold, yet
the decision has enter false, because the code applies the threshold to
the unrounded sum 0.59996. -/
theorem c1_counterexample :
    (analyze_stock_indicators borderSnapshot risk_parameters 100000).weighted_score = 6/10
    ∧ (analyze_stock_indicators borderSnapshot risk_parameters 100000).enter = false := by
  have hlt : ¬ ((6:ℚ)/10 ≤ weightedSum borderSnapshot) := by
    rw [weightedSum_borderSnapshot]; norm_num
  have hr : pyRound 4 (weightedSum borderSnapshot) = 6/10 := by
    rw [weightedSum_borderSnapshot]
    have h10 : ((59996:ℚ)/100000) * 10 ^ 4 = 29998/5 := by norm_num
    rw [pyRound, h10,
      pyRoundInt_of_frac_gt (29998/5) 5999 (by norm_num) (by norm_num) (by norm_num)]
    norm_num
  constructor
  · simp only [analyze_stock_indicators, ge_iff_le, if_neg hlt]
    exact hr
  · simp only [analyze_stock_indicators, ge_iff_le, if_neg hlt]

/-- Claim C1, amended: the entry flag is true exactly when the unrounded
weighted sum is at least the 0.6 threshold; the code thresholds before the
4-place rounding that produces the stored composite score. -/
theorem c1_enter_iff_unrounded_sum (s : Snapshot) (rp : RiskPolicy) (pv : ℚ) :
    (analyze_stock_indicators s rp pv).enter = true ↔ (6:ℚ)/10 ≤ weightedSum s :=
  enter_iff_threshold s rp pv

/-- Claim C2: for every snapshot, each of the ten normalized sub-scores of
analyze_stock_indicators lies between 0 and 1 before weighting. -/
theorem c2_sub_scores_unit_interval (s : Snapshot) :
    (0 ≤ trend_strength s ∧ trend_strength s ≤ 1)
    ∧ (0 ≤ ema_alignment s ∧ ema_alignment s ≤ 1)
    ∧ (0 ≤ macd_trend s ∧ macd_trend s ≤ 1)
    ∧ (0 ≤ rsi_score s ∧ rsi_score s ≤ 1)
    ∧ (0 ≤ stoch_score s ∧ stoch_score s ≤ 1)
    ∧ (0 ≤ willr_score s ∧ willr_score s ≤ 1)
    ∧ (0 ≤ momentum_score s ∧ momentum_score s ≤ 1)
    ∧ (0 ≤ ao_score s ∧ ao_score s ≤ 1)
    ∧ (0 ≤ vwma_score s ∧ vwma_score s ≤ 1)
    ∧ (0 ≤ performance_score s ∧ performance_score s ≤ 1) := by
  refine ⟨⟨normalize_nonneg _ _ _, normalize_le_one _ _ _⟩,
    ite_unit_interval _,
    ite_unit_interval _,
    ⟨normalize_nonneg _ _ _, normalize_le_one _ _ _⟩,
    ⟨normalize_nonneg _ _ _, normalize_le_one _ _ _⟩,
    ⟨?_, ?_⟩,
    ite_unit_interval _,
    ⟨normalize_nonneg _ _ _, normalize_le_one _ _ _⟩,
    ite_unit_interval _,
    ⟨normalize_nonneg _ _ _, normalize_le_one _ _ _⟩⟩
  · have := normalize_le_one (-(s.willR.getD (-100))) 20 80
    unfold willr_score
    linarith
  · have := normalize_nonneg (-(s.willR.getD (-100))) 20 80
    unfold willr_score
    linarith

lemma weightedSum_noCloseSnapshot : weightedSum noCloseSnapshot = 1 := by
  norm_num [weightedSum, noCloseSnapshot, trend_strength, ema_alignment, macd_trend,
    rsi_score, stoch_score, willr_score, momentum_score, ao_score, vwma_score,
    performance_score, win_rate, safe_div, normalize, pyMin, pyMax]

lemma weightedSum_strongSnapshot : weightedSum strongSnapshot = 1 := by
  norm_num [weightedSum, strongSnapshot, noCloseSnapshot, trend_strength, ema_alignment,
    macd_trend, rsi_score, stoch_score, willr_score, momentum_score, ao_score, vwma_score,
    performance_score, win_rate, safe_div, normalize, pyMin, pyMax]

/-- Claim C3, counterexample: a snapshot without a close field enters under
the default risk policy, whose stop-loss percentage 2 is positive, yet its
stop-loss price equals its buy price (both 0), not strictly below. -/
theorem c3_counterexample :
    (analyze_stock_indicators noCloseSnapshot risk_parameters 100000).enter = true
    ∧ 0 < risk_parameters.daily_stop_loss_percent
    ∧ (analyze_stock_indicators noCloseSnapshot risk_parameters 100000).stop_loss_price
        = (analyze_stock_indicators noCloseSnapshot risk_parameters 100000).buy_price := by
  have h : (6:ℚ)/10 ≤ weightedSum noCloseSnapshot := by
    rw [weightedSum_noCloseSnapshot]; norm_num
  refine ⟨?_, by norm_num [risk_parameters], ?_⟩
  · simp [analyze_stock_indicators, ge_iff_le, if_pos h]
  · simp [analyze_stock_indicators, ge_iff_le, if_pos h,
      show noCloseSnapshot.close = none from rfl]

/-- Claim C3, amended: for every entering decision, the stored buy and
stop-loss prices round the computed ones; the computed stop-loss price is
strictly below the buy price whenever the stop-loss percentage and the buy
price are both positive; max_shares is a non-negative integer whenever
capital, the per-trade loss percentage, the stop-loss percentage and the
buy price are non-negative; and max_shares is 0 whenever the risk per
share is 0. -/
theorem c3_stop_loss_and_position_size (s : Snapshot) (rp : RiskPolicy) (pv : ℚ)
    (he : (analyze_stock_indicators s rp pv).enter = true) :
    (analyze_stock_indicators s rp pv).buy_price = some (pyRound 2 (s.close.getD 0))
    ∧ (analyze_stock_indicators s rp pv).stop_loss_price
        = some (pyRound 2 (s.close.getD 0 * (1 - rp.daily_stop_loss_percent / 100)))
    ∧ (0 < rp.daily_stop_loss_percent → 0 < s.close.getD 0 →
        s.close.getD 0 * (1 - rp.daily_stop_loss_percent / 100) < s.close.getD 0)
    ∧ (0 ≤ pv → 0 ≤ rp.per_trade_loss_percent → 0 ≤ rp.daily_stop_loss_percent →
        0 ≤ s.close.getD 0 →
        ∃ n : ℤ, (analyze_stock_indicators s rp pv).max_shares = some n ∧ 0 ≤ n)
    ∧ (s.close.getD 0 - s.close.getD 0 * (1 - rp.daily_stop_loss_percent / 100) = 0 →
        (analyze_stock_indicators s rp pv).max_shares = some 0) := by
  have h : (6:ℚ)/10 ≤ weightedSum s := (enter_iff_threshold s rp pv).mp he
  refine ⟨?_, ?_, ?_, ?_, ?_⟩
  · simp [analyze_stock_indicators, ge_iff_le, if_pos h]
  · simp [analyze_stock_indicators, ge_iff_le, if_pos h]
  · intro hp hc
    nlinarith [mul_pos hc (div_pos hp (by norm_num : (0:ℚ) < 100))]
  · intro hpv hpt hdp hc
    have hrps_nonneg : 0 ≤ s.close.getD 0 - s.close.getD 0 * (1 - rp.daily_stop_loss_percent / 100) := by
      nlinarith [mul_nonneg hc (div_nonneg hdp (by norm_num : (0:ℚ) ≤ 100))]
    by_cases hrps : s.close.getD 0 - s.close.getD 0 * (1 - rp.daily_stop_loss_percent / 100) = 0
    · refine ⟨0, ?_, le_refl 0⟩
      simp [analyze_stock_indicators, ge_iff_le, if_pos h, hrps, pyInt_zero]
    · refine ⟨pyInt (pv * rp.per_trade_loss_percent / 100
        / (s.close.getD 0 - s.close.getD 0 * (1 - rp.daily_stop_loss_percent / 100))), ?_, ?_⟩
      · simp [analyze_stock_indicators, ge_iff_le, if_pos h, hrps]
      · exact pyInt_nonneg _ (div_nonneg (div_nonneg (mul_nonneg hpv hpt) (by norm_num))
          (hrps_nonneg))
  · intro hrps0
    simp [analyze_stock_indicators, ge_iff_le, if_pos h, hrps0, pyInt_zero]

/-- Claim C3, witness: the amended statement applied to the strong
snapshot (close 100) under the default risk policy. -/
theorem c3_witness :
    (analyze_stock_indicators strongSnapshot risk_parameters 100000).enter = true
    ∧ ((analyze_stock_indicators strongSnapshot risk_parameters 100000).buy_price
        = some (pyRound 2 (strongSnapshot.close.getD 0))
      ∧ (analyze_stock_indicators strongSnapshot risk_parameters 100000).stop_loss_price
          = some (pyRound 2 (strongSnapshot.close.getD 0
              * (1 - risk_parameters.daily_stop_loss_percent / 100)))
      ∧ (0 < risk_parameters.daily_stop_loss_percent → 0 < strongSnapshot.close.getD 0 →
          strongSnapshot.close.getD 0 * (1 - risk_parameters.daily_stop_loss_percent / 100)
            < strongSnapshot.close.getD 0)
      ∧ (0 ≤ (100000:ℚ) → 0 ≤ risk_parameters.per_trade_loss_percent →
          0 ≤ risk_parameters.daily_stop_loss_percent → 0 ≤ strongSnapshot.close.getD 0 →
          ∃ n : ℤ, (analyze_stock_indicators strongSnapshot risk_parameters 100000).max_shares
              = some n ∧ 0 ≤ n)
      ∧ (strongSnapshot.close.getD 0
            - strongSnapshot.close.getD 0 * (1 - risk_parameters.daily_stop_loss_percent / 100) = 0 →
          (analyze_stock_indicators strongSnapshot risk_parameters 100000).max_shares = some 0)) := by
  have he : (analyze_stock_indicators strongSnapshot risk_parameters 100000).enter = true :=
    (enter_iff_threshold strongSnapshot risk_parameters 100000).mpr
      (by rw [weightedSum_strongSnapshot]; norm_num)
  exact ⟨he, c3_stop_loss_and_position_size strongSnapshot risk_parameters 100000 he⟩

/-- Claim C8: with close 100, the default risk policy (daily stop-loss 2,
per-trade loss 1) and capital 100000, an entering decision has stop-loss
price 98, risk per share 2, and max_shares 500. -/
theorem c8_position_sizing (s : Snapshot) (hc : s.close = some 100)
    (he : (6:ℚ)/10 ≤ weightedSum s) :
    (analyze_stock_indicators s risk_parameters 100000).enter = true
    ∧ (analyze_stock_indicators s risk_parameters 100000).buy_price = some 100
    ∧ (analyze_stock_indicators s risk_parameters 100000).stop_loss_price = some 98
    ∧ s.close.getD 0 - s.close.getD 0 * (1 - risk_parameters.daily_stop_loss_percent / 100) = 2
    ∧ (analyze_stock_indicators s risk_parameters 100000).max_shares = some 500 := by
  have e100 : pyRound 2 (100:ℚ) = 100 := by exact_mod_cast pyRound_intCast 2 100
  have e98 : pyRound 2 (98:ℚ) = 98 := by exact_mod_cast pyRound_intCast 2 98
  have harith : (100:ℚ) * (1 - risk_parameters.daily_stop_loss_percent / 100) = 98 := by
    norm_num [risk_parameters]
  have hrps : (100:ℚ) - 100 * (1 - risk_parameters.daily_stop_loss_percent / 100) = 2 := by
    norm_num [risk_parameters]
  have hv : (100000:ℚ) * risk_parameters.per_trade_loss_percent / 100 / 2 = 500 := by
    norm_num [risk_parameters]
  have e500 : pyInt (500:ℚ) = 500 := by norm_num [pyInt]
  refine ⟨(enter_iff_threshold s risk_parameters 100000).mpr he, ?_, ?_, ?_, ?_⟩
  · simp [analyze_stock_indicators, ge_iff_le, if_pos he, hc, e100]
  · simp [analyze_stock_indicators, ge_iff_le, if_pos he, hc, harith, e98]
  · rw [hc]; norm_num [risk_parameters]
  · simp [analyze_stock_indicators, ge_iff_le, if_pos he, hc, hrps, hv, e500]

/-- Claim C8, witness: the position-sizing numbers on the strong snapshot
with close 100. -/
theorem c8_witness :
    strongSnapshot.close = some 100
    ∧ (6:ℚ)/10 ≤ weightedSum strongSnapshot
    ∧ ((analyze_stock_indicators strongSnapshot risk_parameters 100000).enter = true
      ∧ (analyze_stock_indicators strongSnapshot risk_parameters 100000).buy_price = some 100
      ∧ (analyze_stock_indicators strongSnapshot risk_parameters 100000).stop_loss_price = some 98
      ∧ strongSnapshot.close.getD 0
          - strongSnapshot.close.getD 0 * (1 - risk_parameters.daily_stop_loss_percent / 100) = 2
      ∧ (analyze_stock_indicators strongSnapshot risk_parameters 100000).max_shares = some 500) :=
  ⟨rfl, by rw [weightedSum_strongSnapshot]; norm_num,
    c8_position_sizing strongSnapshot rfl (by rw [weightedSum_strongSnapshot]; norm_num)⟩

/-- Claim C9: when close is missing and the weighted sum reaches the 0.6
threshold, the decision still enters, with buy, stop-loss and target
prices all 0, max_shares 0 via the zero risk-per-share guard, and it
passes through the ranker. -/
theorem c9_missing_close_enters_with_zero_prices (s : Snapshot) (rp : RiskPolicy) (pv : ℚ)
    (hc : s.close = none) (he : (6:ℚ)/10 ≤ weightedSum s) :
    (analyze_stock_indicators s rp pv).enter = true
    ∧ (analyze_stock_indicators s rp pv).buy_price = some 0
    ∧ (analyze_stock_indicators s rp pv).stop_loss_price = some 0
    ∧ (analyze_stock_indicators s rp pv).target_price = some 0
    ∧ (analyze_stock_indicators s rp pv).max_shares = some 0
    ∧ ranker [analyze_stock_indicators s rp pv] = [analyze_stock_indicators s rp pv] := by
  have he' := (enter_iff_threshold s rp pv).mpr he
  refine ⟨he', ?_, ?_, ?_, ?_, ?_⟩
  · simp [analyze_stock_indicators, ge_iff_le, if_pos he, hc, pyRound_zero]
  · simp [analyze_stock_indicators, ge_iff_le, if_pos he, hc, pyRound_zero]
  · simp [analyze_stock_indicators, ge_iff_le, if_pos he, hc, pyRound_zero]
  · simp [analyze_stock_indicators, ge_iff_le, if_pos he, hc, pyInt_zero]
  · simp [ranker, rankSort, rankInsert, he']

/-- Claim C9, witness: the zero-price entering decision on the no-close
snapshot. -/
theorem c9_witness :
    noCloseSnapshot.close = none
    ∧ (6:ℚ)/10 ≤ weightedSum noCloseSnapshot
    ∧ ((analyze_stock_indicators noCloseSnapshot risk_parameters 100000).enter = true
      ∧ (analyze_stock_indicators noCloseSnapshot risk_parameters 100000).buy_price = some 0
      ∧ (analyze_stock_indicators noCloseSnapshot risk_parameters 100000).stop_loss_price = some 0
      ∧ (analyze_stock_indicators noCloseSnapshot risk_parameters 100000).target_price = some 0
      ∧ (analyze_stock_indicators noCloseSnapshot risk_parameters 100000).max_shares = some 0
      ∧ ranker [analyze_stock_indicators noCloseSnapshot risk_parameters 100000]
          = [analyze_stock_indicators noCloseSnapshot risk_parameters 100000]) :=
  ⟨rfl, by rw [weightedSum_noCloseSnapshot]; norm_num,
    c9_missing_close_enters_with_zero_prices noCloseSnapshot risk_parameters 100000 rfl
      (by rw [weightedSum_noCloseSnapshot]; norm_num)⟩

/-! ## Ranker lemmas -/

lemma mem_rankInsert (x z : Decision) (l : List Decision) :
    z ∈ rankInsert x l ↔ z = x ∨ z ∈ l := by
  induction l with
  | nil => simp [rankInsert]
  | cons y l ih =>
    by_cases h : rankLE x y = true
    · simp only [rankInsert, h, if_true, List.mem_cons]
    · simp only [rankInsert, h, if_false, Bool.false_eq_true, List.mem_cons, ih]
      tauto

lemma rankInsert_perm (x : Decision) (l : List Decision) :
    List.Perm (rankInsert x l) (x :: l) := by
  induction l with
  | nil => simp [rankInsert]
  | cons y l ih =>
    by_cases h : rankLE x y = true
    · simp [rankInsert, h]
    · rw [show rankInsert x (y :: l) = y :: rankInsert x l by simp [rankInsert, h]]
      exact (List.Perm.cons y ih).trans (List.Perm.swap x y l)

lemma rankSort_perm (l : List Decision) : List.Perm (rankSort l) l := by
  induction l with
  | nil => simp [rankSort]
  | cons x l ih =>
    exact (rankInsert_perm x (rankSort l)).trans (List.Perm.cons x ih)

lemma rankLE_flip (d e : Decision) (h : ¬ rankLE d e = true) : rankLE e d = true := by
  simp only [rankLE, Bool.or_eq_true, Bool.and_eq_true, decide_eq_true_eq] at *
  push_neg at h
  rcases h with ⟨h1, h2⟩
  by_cases hq : d.weighted_score = e.weighted_score
  · exact Or.inr ⟨hq.symm, le_of_lt (h2 hq)⟩
  · exact Or.inl (lt_of_le_of_ne h1 hq)

lemma rankLE_trans {a b c : Decision} (h1 : rankLE a b = true) (h2 : rankLE b c = true) :
    rankLE a c = true := by
  simp only [rankLE, Bool.or_eq_true, Bool.and_eq_true, decide_eq_true_eq] at *
  rcases h1 with h1 | ⟨h1e, h1b⟩ <;> rcases h2 with h2 | ⟨h2e, h2b⟩
  · exact Or.inl (h2.trans h1)
  · exact Or.inl (h2e ▸ h1)
  · exact Or.inl (by rw [h1e]; exact h2)
  · exact Or.inr ⟨h1e.trans h2e, h2b.trans h1b⟩

lemma pairwise_rankInsert (x : Decision) (l : List Decision) :
    l.Pairwise (fun d e => rankLE d e = true) →
    (rankInsert x l).Pairwise (fun d e => rankLE d e = true) := by
  induction l with
  | nil =>
    intro _
    simp [rankInsert]
  | cons y l ih =>
    intro hl
    rcases List.pairwise_cons.mp hl with ⟨hy, hl'⟩
    by_cases h : rankLE x y = true
    · rw [show rankInsert x (y :: l) = x :: y :: l by simp [rankInsert, h]]
      refine List.pairwise_cons.mpr ⟨?_, hl⟩
      intro z hz
      rcases List.mem_cons.mp hz with hzy | hz'
      · rw [hzy]
        exact h
      · exact rankLE_trans h (hy z hz')
    · rw [show rankInsert x (y :: l) = y :: rankInsert x l by simp [rankInsert, h]]
      refine List.pairwise_cons.mpr ⟨?_, ih hl'⟩
      intro z hz
      rcases (mem_rankInsert x z l).mp hz with hzx | hz'
      · rw [hzx]
        exact rankLE_flip x y h
      · exact hy z hz'

lemma pairwise_rankSort (l : List Decision) :
    (rankSort l).Pairwise (fun d e => rankLE d e = true) := by
  induction l with
  | nil => simp [rankSort]
  | cons x l ih => exact pairwise_rankInsert x (rankSort l) ih


lemma filter_rankInsert_of_key (x : Decision) (l : List Decision) (k : ℚ × ℚ)
    (hx : rankKey x = k) :
    (rankInsert x l).filter (fun d => decide (rankKey d = k))
      = x :: l.filter (fun d => decide (rankKey d = k)) := by
  induction l with
  | nil => simp [rankInsert, List.filter, hx]
  | cons y l ih =>
    by_cases h : rankLE x y = true
    · rw [show rankInsert x (y :: l) = x :: y :: l by simp [rankInsert, h]]
      rw [List.filter_cons, if_pos (by simp [hx])]
    · have hyk : ¬ (rankKey y = k) := by
        intro hk
        apply h
        have hkk : rankKey x = rankKey y := hx.trans hk.symm
        simp only [rankKey, Prod.mk.injEq] at hkk
        obtain ⟨h1, h2⟩ := hkk
        simp [rankLE, h1, h2]
      rw [show rankInsert x (y :: l) = y :: rankInsert x l by simp [rankInsert, h]]
      rw [List.filter_cons, if_neg (by simp [hyk]), ih, List.filter_cons,
        if_neg (by simp [hyk])]

lemma filter_rankInsert_of_ne (x : Decision) (l : List Decision) (k : ℚ × ℚ)
    (hx : ¬ rankKey x = k) :
    (rankInsert x l).filter (fun d => decide (rankKey d = k))
      = l.filter (fun d => decide (rankKey d = k)) := by
  induction l with
  | nil => simp [rankInsert, List.filter, hx]
  | cons y l ih =>
    by_cases h : rankLE x y = true
    · rw [show rankInsert x (y :: l) = x :: y :: l by simp [rankInsert, h]]
      rw [List.filter_cons, if_neg (by simp [hx])]
    · rw [show rankInsert x (y :: l) = y :: rankInsert x l by simp [rankInsert, h]]
      rw [List.filter_cons, ih, List.filter_cons]

lemma filter_rankSort (l : List Decision) (k : ℚ × ℚ) :
    (rankSort l).filter (fun d => decide (rankKey d = k))
      = l.filter (fun d => decide (rankKey d = k)) := by
  induction l with
  | nil => rfl
  | cons x l ih =>
    show (rankInsert x (rankSort l)).filter _ = _
    by_cases hx : rankKey x = k
    · rw [filter_rankInsert_of_key x _ k hx, ih, List.filter_cons, if_pos (by simp [hx])]
    · rw [filter_rankInsert_of_ne x _ k hx, ih, List.filter_cons, if_neg (by simp [hx])]

/-- Claim C4: the ranker returns exactly the enter subset, pairwise ordered
by weighted score descending with buy price as tie-break, and rows that tie
on both keys keep their original relative order (the filtrations by any
key pair agree). -/
theorem c4_ranker_subset_sorted_stable (ds : List Decision) :
    List.Perm (ranker ds) (ds.filter (fun d => d.enter))
    ∧ (ranker ds).Pairwise (fun d e =>
        e.weighted_score < d.weighted_score
        ∨ (d.weighted_score = e.weighted_score ∧ buyKey e ≤ buyKey d))
    ∧ ∀ k : ℚ × ℚ,
        (ranker ds).filter (fun d => decide (rankKey d = k))
          = (ds.filter (fun d => d.enter)).filter (fun d => decide (rankKey d = k)) := by
  refine ⟨rankSort_perm _, ?_, fun k => filter_rankSort _ k⟩
  refine (pairwise_rankSort _).imp ?_
  intro a b h
  simpa only [rankLE, Bool.or_eq_true, Bool.and_eq_true, decide_eq_true_eq] using h

/-- Claim C5: on a store with fewer than 2 existing rows, append mode
produces exactly the same result as overwrite mode. -/
theorem c5_append_resolves_to_overwrite (df : Frame) (ws : Sheet)
    (h : ws.rows.length < 2) :
    export_to_sheets df SheetMode.append ws = export_to_sheets df SheetMode.write ws := by
  have h1 : ws.rows.length ≤ 1 := Nat.lt_succ_iff.mp h
  simp [export_to_sheets, h1]

/-- Claim C5, witness: append on a header-only sheet equals overwrite. -/
theorem c5_witness :
    headerOnlySheet.rows.length < 2
    ∧ export_to_sheets sampleFrame SheetMode.append headerOnlySheet
        = export_to_sheets sampleFrame SheetMode.write headerOnlySheet :=
  ⟨by decide, c5_append_resolves_to_overwrite sampleFrame headerOnlySheet (by decide)⟩

/-! ## Fan-out lemmas -/

lemma scored_get_data_eq (net : SegSym → Outcome) (rp : RiskPolicy) (pv : ℚ) :
    ∀ symbols : List SegSym,
      scored_decisions (get_data net symbols) rp pv
        = symbols.filterMap (fun sy =>
            match net sy with
            | Outcome.payload j => some (analyze_stock_indicators
                { j with segment := some sy.seg, symbol := some sy.sym } rp pv)
            | Outcome.raised _ => none) := by
  intro symbols
  induction symbols with
  | nil => rfl
  | cons sy l ih =>
    simp only [get_data, List.map_cons, scored_decisions, List.filterMap_cons,
      List.filterMap_map] at *
    cases hnet : net sy with
    | payload j => simp [fetch, hnet, ih]
    | raised e => simp [fetch, hnet, ih]

lemma scored_get_data_length (net : SegSym → Outcome) (rp : RiskPolicy) (pv : ℚ) :
    ∀ symbols : List SegSym,
      (scored_decisions (get_data net symbols) rp pv).length
        = (symbols.filter (fun sy =>
            match net sy with
            | Outcome.payload _ => true
            | Outcome.raised _ => false)).length := by
  intro symbols
  induction symbols with
  | nil => rfl
  | cons sy l ih =>
    simp only [get_data, List.map_cons, scored_decisions, List.filterMap_cons,
      List.filter_cons, List.filterMap_map] at *
    cases hnet : net sy with
    | payload j => simp [fetch, hnet, ih]
    | raised e => simp [fetch, hnet, ih]

/-- Claim C6: the batch returns one result per identifier; every entry is
either a snapshot or a tagged error string (never a raised exception);
scoring receives exactly the successful snapshots; and in the concrete
five-symbol run with one network failure, 5 results come back, 4 are
scored and 1 is a tagged failure. -/
theorem c6_fanout_failure_isolation (net : SegSym → Outcome) (rp : RiskPolicy) (pv : ℚ)
    (symbols : List SegSym) :
    (get_data net symbols).length = symbols.length
    ∧ (∀ r ∈ get_data net symbols,
        (∃ snap, r = Sum.inl snap) ∨ (∃ e, r = Sum.inr ("Error: " ++ e)))
    ∧ scored_decisions (get_data net symbols) rp pv
        = symbols.filterMap (fun sy =>
            match net sy with
            | Outcome.payload j => some (analyze_stock_indicators
                { j with segment := some sy.seg, symbol := some sy.sym } rp pv)
            | Outcome.raised _ => none)
    ∧ (scored_decisions (get_data net symbols) rp pv).length
        = (symbols.filter (fun sy =>
            match net sy with
            | Outcome.payload _ => true
            | Outcome.raised _ => false)).length
    ∧ (get_data oneFailureNet fiveSymbols).length = 5
    ∧ (scored_decisions (get_data oneFailureNet fiveSymbols) rp pv).length = 4
    ∧ (get_data oneFailureNet fiveSymbols).countP (fun r =>
          match r with
          | Sum.inl _ => false
          | Sum.inr _ => true) = 1 := by
  refine ⟨by simp [get_data], ?_, scored_get_data_eq net rp pv symbols,
    scored_get_data_length net rp pv symbols, rfl, ?_, rfl⟩
  · intro r hr
    simp only [get_data, List.mem_map] at hr
    obtain ⟨sy, _, rfl⟩ := hr
    cases hnet : net sy with
    | payload j =>
      exact Or.inl ⟨{ j with segment := some sy.seg, symbol := some sy.sym },
        by simp [fetch, hnet]⟩
    | raised e => exact Or.inr ⟨e, by simp [fetch, hnet]⟩
  · rw [scored_get_data_length oneFailureNet rp pv fiveSymbols]
    rfl

/-! ## Defaulting lemmas -/

lemma weightedSum_fillDefaults (s : Snapshot) :
    weightedSum (fillDefaults s) = weightedSum s := by
  simp [weightedSum, fillDefaults, trend_strength, ema_alignment, macd_trend, rsi_score,
    stoch_score, willr_score, momentum_score, ao_score, vwma_score, performance_score,
    win_rate, safe_div]

/-- Claim C7: the scoring engine never fails on sparse input, and a
snapshot with missing indicator fields is scored exactly as the same
snapshot with the neutral defaults (0, and -100 for Williams %R) filled
in: every output field except the serialized params agrees. -/
theorem c7_missing_fields_use_neutral_defaults (s : Snapshot) (rp : RiskPolicy) (pv : ℚ) :
    (analyze_stock_indicators s rp pv).weighted_score
        = (analyze_stock_indicators (fillDefaults s) rp pv).weighted_score
    ∧ (analyze_stock_indicators s rp pv).enter
        = (analyze_stock_indicators (fillDefaults s) rp pv).enter
    ∧ (analyze_stock_indicators s rp pv).buy_price
        = (analyze_stock_indicators (fillDefaults s) rp pv).buy_price
    ∧ (analyze_stock_indicators s rp pv).stop_loss_price
        = (analyze_stock_indicators (fillDefaults s) rp pv).stop_loss_price
    ∧ (analyze_stock_indicators s rp pv).target_price
        = (analyze_stock_indicators (fillDefaults s) rp pv).target_price
    ∧ (analyze_stock_indicators s rp pv).GTT
        = (analyze_stock_indicators (fillDefaults s) rp pv).GTT
    ∧ (analyze_stock_indicators s rp pv).max_shares
        = (analyze_stock_indicators (fillDefaults s) rp pv).max_shares
    ∧ (analyze_stock_indicators s rp pv).reason
        = (analyze_stock_indicators (fillDefaults s) rp pv).reason
    ∧ (analyze_stock_indicators s rp pv).symbol
        = (analyze_stock_indicators (fillDefaults s) rp pv).symbol
    ∧ (analyze_stock_indicators s rp pv).segment
        = (analyze_stock_indicators (fillDefaults s) rp pv).segment := by
  have hws := weightedSum_fillDefaults s
  have hclose : (fillDefaults s).close.getD 0 = s.close.getD 0 := by simp [fillDefaults]
  have hsym : (fillDefaults s).symbol = s.symbol := rfl
  have hseg : (fillDefaults s).segment = s.segment := rfl
  by_cases h : (6:ℚ)/10 ≤ weightedSum s
  · simp [analyze_stock_indicators, ge_iff_le, hws, hclose, hsym, hseg, if_pos h]
  · simp [analyze_stock_indicators, ge_iff_le, hws, hclose, hsym, hseg, if_neg h]

/-- Claim C10: the alternate scorer leaves rsi, stochastic_k and rec_macd
unclamped, so a snapshot with rec_macd 100 yields a stored composite score
of 5.1, strictly greater than 1. -/
theorem c10_alternate_scorer_score_exceeds_one :
    1 < (trading_script_with_position_sizing recMacdSnapshot
          risk_parameters 100000).weighted_score := by
  have h51 : pyRound 4 ((51:ℚ)/10) = 51/10 := by
    have harg : ((51:ℚ)/10) * 10 ^ 4 = ((51000:ℤ) : ℚ) := by norm_num
    rw [pyRound, harg, pyRoundInt_intCast]
    norm_num
  have hsc : (trading_script_with_position_sizing recMacdSnapshot
      risk_parameters 100000).weighted_score = 51/10 := by
    rw [show (trading_script_with_position_sizing recMacdSnapshot
        risk_parameters 100000).weighted_score = pyRound 4 ((51:ℚ)/10) from ?_]
    · exact h51
    · norm_num [trading_script_with_position_sizing, recMacdSnapshot, normalize_adx,
        normalize_rsi, normalize_macd, normalize_willr, pyMin, pyMax]
  rw [hsc]
  norm_num

end StockPicker
